import Mathlib

/-
Verification model of the two modules of this repository:
  * `actions/web_search.py`  — multi-provider search client
  * `actions/web_scrape.py`  — Selenium-driven page fetcher

External collaborators (the HTTP stack, the Selenium driver, BeautifulSoup,
the summarizer, the arXiv and PDF loaders, the websocket) are modelled as
oracle inputs: each external call site receives its outcome (a value or a
raised exception) as a parameter.  The Python control flow around those
call sites is translated line by line.
-/

/-- Python exception values that the translated code can raise or inspect.
`keyError k` models `KeyError(k)` (from `d[k]` on a dict missing `k`, or an
invalid key into a selection table); `typeError`/`attributeError` model the
corresponding built-in exceptions; `exc` models any other exception carried
with its message. -/
inductive PyErr where
  | keyError (key : String)
  | typeError (m : String)
  | attributeError (m : String)
  | exc (m : String)
deriving DecidableEq, Repr

/-- Python `str(e)` for the modelled exceptions; `str(KeyError(k))` renders
the key wrapped in single quotes. -/
def PyErr.msg : PyErr → String
  | .keyError k => "\x27" ++ k ++ "\x27"
  | .typeError m => m
  | .attributeError m => m
  | .exc m => m

/-- `e.isOk` is true when an `Except` carries a value, i.e. when the Python
code it models returned instead of raising. -/
def okB {ε α : Type} : Except ε α → Bool
  | .ok _ => true
  | .error _ => false

/-- JSON values as produced by `json.loads` on a provider response body.
(`json.loads` can also yield booleans and floats; they behave exactly like
`num` in every translated code path — any non-string, non-object,
non-array scalar — so a single scalar constructor stands for them.) -/
inductive Json where
  | null
  | str (s : String)
  | num (n : Int)
  | arr (elems : List Json)
  | obj (fields : List (String × Json))

/-- Python `d[key]` on a parsed JSON value: a `KeyError` when the object
lacks the key, a `TypeError` when the value is not a dict. -/
def Json.getKey : Json → String → Except PyErr Json
  | .obj fields, key =>
    match fields.lookup key with
    | some v => .ok v
    | none => .error (.keyError key)
  | _, key => .error (.typeError ("value is not subscriptable by key " ++ key))

/-- Python `d.get(key, dflt)` on a parsed JSON value: the default when the
key is absent, an `AttributeError` when the value is not a dict. -/
def Json.getD (j : Json) (key : String) (dflt : Json) : Except PyErr Json :=
  match j with
  | .obj fields => .ok ((fields.lookup key).getD dflt)
  | _ => .error (.attributeError "value has no attribute get")

/-- Reading `result[key]` where the translated code then uses the value as a
string (`in` test on `result["link"]`, or a field of the serialized record).
A missing key is a `KeyError`; a non-string value makes the subsequent
`"youtube.com" in result["link"]` containment test a `TypeError`, which we
surface at the read. -/
def Json.getStr (j : Json) (key : String) : Except PyErr String :=
  match j.getKey key with
  | .error e => .error e
  | .ok (.str s) => .ok s
  | .ok _ => .error (.typeError ("expected a string value at key " ++ key))

/-- Python substring containment `pat in s` (contiguous substring). -/
def containsSub (s pat : String) : Bool :=
  (List.range (s.data.length + 1)).any (fun i => pat.data.isPrefixOf (s.data.drop i))

/-- One normalized search record, the common `{title, href, body}` shape.
`title := none` models branches whose Python dict has no `"title"` key. -/
structure SearchResult where
  title : Option String
  href : String
  body : String
deriving DecidableEq, Repr

/-- A Tavily result object as consumed by `web_search` (`obj["url"]`,
`obj["content"]`). -/
structure TavilyResult where
  url : String
  content : String
deriving DecidableEq, Repr

/-- A Searx result object as consumed by `web_search` (`obj["link"]`,
`obj["snippet"]`). -/
structure SearxResult where
  link : String
  snippet : String
deriving DecidableEq, Repr

/-- Normalization of a Tavily object, from
`{"href": obj["url"], "body": obj["content"]}` (web_search.py line 28). -/
def tavilyToResult (r : TavilyResult) : SearchResult :=
  { title := none, href := r.url, body := r.content }

/-- Normalization of a Searx object, from
`{"href": obj["link"], "body": obj["snippet"]}` (web_search.py line 40). -/
def searxToResult (r : SearxResult) : SearchResult :=
  { title := none, href := r.link, body := r.snippet }

/-- The provider-call sites of the search client; a call record is appended
to the output trace each time the translated code would hit the network (or
the provider client library). -/
inductive NetCall where
  | tavily
  | serp
  | google
  | searx
  | ddg
deriving DecidableEq, Repr

/-- Oracle outcomes for the provider calls of one `web_search` invocation.
For the two `requests`-based branches the oracle is layered like the code's
own guards: `none` = the `resp is None` guard fires, `some none` =
`json.loads(resp.text)` raises, `some (some j)` = the parsed JSON value
(`Json.null` models a parsed JSON `null`, i.e. Python `None`). -/
structure Oracles where
  tavilyResults : List TavilyResult
  serpResp : Option (Option Json)
  googleResp : Option (Option Json)
  searxResults : List SearxResult
  ddgResults : List SearchResult

/-- The accumulation loop of `web_search` (web_search.py lines 46-51):
append each element, increment `total_added`, and break once
`total_added >= num_results`.  Note the check runs after the append, so with
`num_results = 0` a nonempty input still contributes one element. -/
def takeLoop {α : Type} : List α → Nat → Nat → List α
  | [], _, _ => []
  | j :: rest, total_added, num_results =>
    if total_added + 1 ≥ num_results then [j]
    else j :: takeLoop rest (total_added + 1) num_results

/-- The shared normalization loop of `serp_web_search` (lines 78-87) and
`google_web_search` (lines 111-120): for each result read `result["link"]`,
skip it when the link contains `"youtube.com"`, otherwise emit
`{"title": result["title"], "href": result["link"], "body": result["snippet"]}`. -/
def itemsNormalize : List Json → Except PyErr (List SearchResult)
  | [] => .ok []
  | result :: rest =>
    match result.getStr "link" with
    | .error e => .error e
    | .ok link =>
      if containsSub link "youtube.com" then itemsNormalize rest
      else
        match result.getStr "title" with
        | .error e => .error e
        | .ok title =>
          match result.getStr "snippet" with
          | .error e => .error e
          | .ok body =>
            match itemsNormalize rest with
            | .error e => .error e
            | .ok tail => .ok ({ title := some title, href := link, body := body } :: tail)

/-- `serp_web_search` (web_search.py lines 55-89).  The result `some l`
models returning `json.dumps(l)`; `none` models the bare `return`
(Python `None`) taken when the response is absent, fails to parse, or
parses to JSON `null`.  No truncation to `num_results` happens locally:
the count is only forwarded in the request payload. -/
def serp_web_search (resp : Option (Option Json)) (_query : String) (_num_results : Nat) :
    Except PyErr (Option (List SearchResult)) :=
  match resp with
  | none => .ok none
  | some none => .ok none
  | some (some parsed) =>
    match parsed with
    | .null => .ok none
    | j =>
      match j.getKey "organic" with
      | .error e => .error e
      | .ok (.arr results) =>
        match itemsNormalize results with
        | .error e => .error e
        | .ok l => .ok (some l)
      | .ok _ => .error (.typeError "organic value is not a list of results")

/-- `google_web_search` (web_search.py lines 92-124).  Same layering as
`serp_web_search`, except the items are read with
`search_results.get("items", [])` and the final list is sliced with
`search_results[:num_result]` before serialization. -/
def google_web_search (resp : Option (Option Json)) (_query : String) (num_result : Nat) :
    Except PyErr (Option (List SearchResult)) :=
  match resp with
  | none => .ok none
  | some none => .ok none
  | some (some parsed) =>
    match parsed with
    | .null => .ok none
    | j =>
      match j.getD "items" (.arr []) with
      | .error e => .error e
      | .ok (.arr results) =>
        match itemsNormalize results with
        | .error e => .error e
        | .ok l => .ok (some (l.take num_result))
      | .ok _ => .error (.typeError "items value is not a list of results")

/-- The provider names the `elif` chain of `web_search` recognizes. -/
def known_search_apis : List String := ["tavily", "googleSerp", "googleAPI", "searx", "duckduckgo"]

/-- `web_search` (web_search.py lines 13-53).  `search_api` is
`CFG.search_api`; the second component of the output records the provider
calls issued.  An empty query returns `json.dumps([])` before any branch is
taken; an unrecognized provider name falls through every `elif` and reaches
the final `json.dumps` with `search_response` still empty. -/
def web_search (o : Oracles) (search_api query : String) (num_results : Nat) :
    Except PyErr (Option (List SearchResult)) × List NetCall :=
  if query = "" then (.ok (some []), [])
  else if search_api = "tavily" then
    let search_response := o.tavilyResults.map tavilyToResult
    (.ok (some (takeLoop search_response 0 num_results)), [.tavily])
  else if search_api = "googleSerp" then
    (serp_web_search o.serpResp query num_results, [.serp])
  else if search_api = "googleAPI" then
    (google_web_search o.googleResp query num_results, [.google])
  else if search_api = "searx" then
    let search_response := o.searxResults.map searxToResult
    (.ok (some (takeLoop search_response 0 num_results)), [.searx])
  else if search_api = "duckduckgo" then
    (.ok (some (takeLoop o.ddgResults 0 num_results)), [.ddg])
  else
    (.ok (some (takeLoop ([] : List SearchResult) 0 num_results)), [])

/-- The serialized list of a `web_search`-shaped outcome: `some l` when the
call returned `json.dumps(l)`, `none` when it returned Python `None` or
raised. -/
def outList : Except PyErr (Option (List SearchResult)) × List NetCall →
    Option (List SearchResult)
  | (.ok l, _) => l
  | (.error _, _) => none

/-- String helper used to translate Python `url.endswith(".pdf")`
(web_scrape.py line 154). -/
def strEndsWith (s suffix : String) : Bool :=
  suffix.data.reverse.isPrefixOf s.data.reverse

/-- Splitting a character list at every occurrence of a separator
character, Python-`str.split` style (`"a/".split("/") = ["a", ""]`). -/
def splitChar (c : Char) : List Char → List (List Char)
  | [] => [[]]
  | x :: xs =>
    let r := splitChar c xs
    if x = c then [] :: r
    else
      match r with
      | [] => [[x]]
      | h :: t => (x :: h) :: t

/-- Python `url.split("/")[-1]` (web_scrape.py line 158): the final
`/`-delimited segment of the URL. -/
def lastSegment (url : String) : String :=
  String.mk ((splitChar '/' url.data).getLastD [])

/-- Characters removed by Python `str.strip()` on the scraped text. -/
def isSpaceChar (c : Char) : Bool :=
  c = ' ' || c = '\t' || c = '\n' || c = '\r'

/-- Python `str.strip()`. -/
def stripStr (s : String) : String :=
  String.mk (((s.data.dropWhile isSpaceChar).reverse.dropWhile isSpaceChar).reverse)

/-- Python `line.split("  ")`: split at every non-overlapping run of two
spaces, left to right. -/
def splitTwoSpaces : List Char → List (List Char)
  | [] => [[]]
  | ' ' :: ' ' :: rest => [] :: splitTwoSpaces rest
  | c :: rest =>
    match splitTwoSpaces rest with
    | [] => [[c]]
    | h :: t => (c :: h) :: t

/-- The whitespace normalization of `scrape_text_with_selenium`
(web_scrape.py lines 171-173): strip each line, re-split every line on
double-space runs, strip the fragments, drop empty fragments, and rejoin
with single newlines.  (`str.splitlines` is modelled as splitting on
`'\n'`.) -/
def cleanText (text : String) : String :=
  let lines := (splitChar '\n' text.data).map (fun l => stripStr (String.mk l))
  let chunks := lines.flatMap
    (fun line => (splitTwoSpaces line.data).map (fun p => stripStr (String.mk p)))
  String.intercalate "\n" (chunks.filter (fun chunk => chunk ≠ ""))

/-- Observable events of one fetch call, in program order: the driver
construction that opens the browser session, `driver.get`, the
body-element wait, the three content-extraction call sites (with the
argument each one receives), `add_header`, `summary.summarize_text`,
`scrape_links_with_selenium`, `close_browser`, and the two websocket
progress messages of `async_browse`. -/
inductive Ev where
  | openSession
  | navigate
  | waitBody
  | extractPdf (url : String)
  | extractArxiv (docNum : String)
  | extractDom
  | addHeader
  | summarize
  | scrapeLinks
  | closeSession
  | wsBrowsing
  | wsGathered
deriving DecidableEq, Repr

/-- `hasEv tr e` is true when event `e` occurs in trace `tr`. -/
def hasEv (tr : List Ev) (e : Ev) : Bool :=
  tr.any (fun x => x == e)

/-- Oracle outcomes for the external call sites of one fetch call: driver
construction, `driver.get`, the `WebDriverWait` (a timeout raises), the
three content extractors, the `add_header` script injection, the
summarizer, and the hyperlink extraction+formatting.  Each field is the
value returned, or the exception raised, at that call site. -/
structure ScrapeEnv where
  construct : Except PyErr Unit
  navigate : Except PyErr Unit
  waitBody : Except PyErr Unit
  pdfText : Except PyErr String
  arxivText : Except PyErr String
  domText : Except PyErr String
  headerRes : Except PyErr Unit
  summaryRes : Except PyErr String
  linksRes : Except PyErr (List String)

/-- The browser table of `scrape_text_with_selenium`
(web_scrape.py lines 120-124): the keys of `options_available`. -/
def supported_browsers : List String := ["chrome", "safari", "firefox"]

/-- The URL-classification branch of `scrape_text_with_selenium`
(web_scrape.py lines 153-169): `.pdf` suffix first, then the `arxiv`
substring (document number = last `/`-segment), otherwise the DOM text. -/
def extractStep (env : ScrapeEnv) (url : String) : Except PyErr String × List Ev :=
  if strEndsWith url ".pdf" then
    (env.pdfText, [Ev.extractPdf url])
  else if containsSub url "arxiv" then
    (env.arxivText, [Ev.extractArxiv (lastSegment url)])
  else
    (env.domText, [Ev.extractDom])

/-- `scrape_text_with_selenium` (web_scrape.py lines 109-174): look the
configured browser up in `options_available` (a `KeyError` for an
unsupported name, before any session exists), construct the driver,
navigate, wait for the body element, classify the URL to obtain the raw
text, and apply the whitespace normalization.  The trace records the
events that happened before the first failure. -/
def scrape_text_with_selenium (env : ScrapeEnv) (browser url : String) :
    Except PyErr String × List Ev :=
  if supported_browsers.contains browser then
    match env.construct with
    | .error e => (.error e, [])
    | .ok _ =>
      match env.navigate with
      | .error e => (.error e, [Ev.openSession, Ev.navigate])
      | .ok _ =>
        match env.waitBody with
        | .error e => (.error e, [Ev.openSession, Ev.navigate, Ev.waitBody])
        | .ok _ =>
          match extractStep env url with
          | (.error e, tr) => (.error e, [Ev.openSession, Ev.navigate, Ev.waitBody] ++ tr)
          | (.ok text, tr) =>
            (.ok (cleanText text), [Ev.openSession, Ev.navigate, Ev.waitBody] ++ tr)
  else
    (.error (.keyError browser), [])

/-- The scrape → `add_header` → `summarize_text` sequence shared verbatim
by `browse_website` (web_scrape.py lines 93-95) and by the body of the
`try` block of `async_browse` (lines 61-67). -/
def fetchSteps (env : ScrapeEnv) (browser url : String) :
    Except PyErr String × List Ev :=
  match scrape_text_with_selenium env browser url with
  | (.error e, tr) => (.error e, tr)
  | (.ok _, tr) =>
    match env.headerRes with
    | .error e => (.error e, tr ++ [Ev.addHeader])
    | .ok _ =>
      match env.summaryRes with
      | .error e => (.error e, tr ++ [Ev.addHeader, Ev.summarize])
      | .ok s => (.ok s, tr ++ [Ev.addHeader, Ev.summarize])

/-- The message `browse_website` returns for an empty URL
(web_scrape.py line 91). -/
def cancelMessage : String :=
  "URLが指定されていないため、ウェブサイト閲覧のリクエストをキャンセルしました。"

/-- Python `repr` of a list of strings, as interpolated into the answer by
`f"... Links: {links}"`. -/
def pyListRepr (l : List String) : String :=
  "[" ++ String.intercalate ", " (l.map (fun s => "\x27" ++ s ++ "\x27")) ++ "]"

/-- `browse_website` (web_scrape.py lines 82-106): reject an empty URL with
a descriptive message before any browser work; otherwise scrape, inject the
header, summarize, scrape the links, truncate them to 5, close the browser
and return the answer string.  There is no `try`/`except`: an exception at
any step propagates (modelled by `.error`), and `close_browser` is only
reached on the all-success path. -/
def browse_website (env : ScrapeEnv) (browser url _question : String) :
    Except PyErr String × List Ev :=
  if url = "" then (.ok cancelMessage, [])
  else
    match fetchSteps env browser url with
    | (.error e, tr) => (.error e, tr)
    | (.ok summary_text, tr) =>
      match env.linksRes with
      | .error e => (.error e, tr ++ [Ev.scrapeLinks])
      | .ok links =>
        (.ok ("Answer gathered from website: " ++ summary_text ++ " \n \n Links: "
            ++ pyListRepr (if links.length > 5 then links.take 5 else links)),
          tr ++ [Ev.scrapeLinks, Ev.closeSession])

/-- `async_browse` (web_scrape.py lines 38-79): send the pre-fetch progress
message, then run scrape → `add_header` → `summarize_text` inside a
`try` block; on success send the post-fetch progress message and return the
answer string, on any exception return the error string built from the URL
and the exception message.  The result is always `.ok` (nothing escapes the
`except`), and no step ever closes the browser session.  The `question`
argument only feeds the log messages and the summarizer. -/
def async_browse (env : ScrapeEnv) (browser url _question : String) :
    Except PyErr String × List Ev :=
  match fetchSteps env browser url with
  | (.ok summary_text, tr) =>
    (.ok ("Information gathered from url " ++ url ++ ": " ++ summary_text),
      Ev.wsBrowsing :: (tr ++ [Ev.wsGathered]))
  | (.error e, tr) =>
    (.ok ("Error processing the url " ++ url ++ ": " ++ e.msg),
      Ev.wsBrowsing :: tr)

/-! ### Helper lemmas about the accumulation loop -/

theorem takeLoop_eq_take {α : Type} :
    ∀ (xs : List α) (t n : Nat), t < n → takeLoop xs t n = xs.take (n - t) := by
  intro xs
  induction xs with
  | nil => intro t n _; simp [takeLoop]
  | cons j rest ih =>
    intro t n ht
    unfold takeLoop
    by_cases h : t + 1 ≥ n
    · have hn : n - t = 1 := by omega
      simp [h, hn]
    · have hlt : t + 1 < n := by omega
      have hn : n - t = (n - (t + 1)) + 1 := by omega
      simp [h, hn, List.take_succ_cons, ih (t + 1) n hlt]

theorem takeLoop_zero_of_pos {α : Type} (xs : List α) (n : Nat) (h : 1 ≤ n) :
    takeLoop xs 0 n = xs.take n := by
  have := takeLoop_eq_take xs 0 n (by omega)
  simpa using this

theorem takeLoop_sublist {α : Type} :
    ∀ (xs : List α) (t n : Nat), (takeLoop xs t n).Sublist xs := by
  intro xs
  induction xs with
  | nil => intro t n; simp [takeLoop]
  | cons j rest ih =>
    intro t n
    unfold takeLoop
    by_cases h : t + 1 ≥ n
    · simp [h]
    · simpa [h] using (ih (t + 1) n).cons₂ j

/-! ### Helper lemmas about the provider branches of `web_search` -/

theorem web_search_tavily_eq (o : Oracles) (q : String) (n : Nat) (hq : q ≠ "") :
    web_search o "tavily" q n
      = (.ok (some (takeLoop (o.tavilyResults.map tavilyToResult) 0 n)), [.tavily]) := by
  unfold web_search
  rw [if_neg hq]
  rfl

theorem web_search_serp_eq (o : Oracles) (q : String) (n : Nat) (hq : q ≠ "") :
    web_search o "googleSerp" q n = (serp_web_search o.serpResp q n, [.serp]) := by
  unfold web_search
  rw [if_neg hq]
  rfl

theorem web_search_google_eq (o : Oracles) (q : String) (n : Nat) (hq : q ≠ "") :
    web_search o "googleAPI" q n = (google_web_search o.googleResp q n, [.google]) := by
  unfold web_search
  rw [if_neg hq]
  rfl

theorem web_search_searx_eq (o : Oracles) (q : String) (n : Nat) (hq : q ≠ "") :
    web_search o "searx" q n
      = (.ok (some (takeLoop (o.searxResults.map searxToResult) 0 n)), [.searx]) := by
  unfold web_search
  rw [if_neg hq]
  rfl

theorem web_search_ddg_eq (o : Oracles) (q : String) (n : Nat) (hq : q ≠ "") :
    web_search o "duckduckgo" q n
      = (.ok (some (takeLoop o.ddgResults 0 n)), [.ddg]) := by
  unfold web_search
  rw [if_neg hq]
  rfl

/-! ### Helper lemmas about the shared serp/google normalization loop -/

theorem itemsNormalize_youtube_free :
    ∀ (items : List Json) (l : List SearchResult), itemsNormalize items = .ok l →
      ∀ r ∈ l, containsSub r.href "youtube.com" = false := by
  intro items
  induction items with
  | nil =>
    intro l h r hr
    simp [itemsNormalize] at h
    subst h
    simp at hr
  | cons result rest ih =>
    intro l h r hr
    unfold itemsNormalize at h
    split at h
    · simp at h
    · split at h
      next hyt => exact ih l h r hr
      next hyt =>
        split at h
        · simp at h
        · split at h
          · simp at h
          · split at h
            · simp at h
            next tail heq4 =>
              simp only [Except.ok.injEq] at h
              subst h
              rcases List.mem_cons.mp hr with hhead | htl
              · subst hhead
                simpa using Bool.eq_false_iff.mpr hyt
              · exact ih tail heq4 r htl

theorem itemsNormalize_link_provenance :
    ∀ (items : List Json) (l : List SearchResult), itemsNormalize items = .ok l →
      ∀ r ∈ l, ∃ item ∈ items, item.getStr "link" = .ok r.href := by
  intro items
  induction items with
  | nil =>
    intro l h r hr
    simp [itemsNormalize] at h
    subst h
    simp at hr
  | cons result rest ih =>
    intro l h r hr
    unfold itemsNormalize at h
    split at h
    · simp at h
    next link hlink =>
      split at h
      next hyt =>
        obtain ⟨item, hin, hget⟩ := ih l h r hr
        exact ⟨item, List.mem_cons_of_mem result hin, hget⟩
      next hyt =>
        split at h
        · simp at h
        · split at h
          · simp at h
          · split at h
            · simp at h
            next tail heq4 =>
              simp only [Except.ok.injEq] at h
              subst h
              rcases List.mem_cons.mp hr with hhead | htl
              · subst hhead
                exact ⟨result, List.mem_cons_self result rest, hlink⟩
              · obtain ⟨item, hin, hget⟩ := ih tail heq4 r htl
                exact ⟨item, List.mem_cons_of_mem result hin, hget⟩

/-- A well-shaped serp response (an object whose `"organic"` field is the
result array) evaluates to the normalized list, with no local truncation. -/
theorem serp_ok_items (items : List Json) (q : String) (n : Nat)
    (l : List SearchResult) (h : itemsNormalize items = .ok l) :
    serp_web_search (some (some (Json.obj [("organic", Json.arr items)]))) q n
      = .ok (some l) := by
  simp [serp_web_search, Json.getKey, List.lookup, h]

/-- A well-shaped google response (an object whose `"items"` field is the
result array) evaluates to the normalized list sliced to `num_result`. -/
theorem google_ok_items (items : List Json) (q : String) (n : Nat)
    (l : List SearchResult) (h : itemsNormalize items = .ok l) :
    google_web_search (some (some (Json.obj [("items", Json.arr items)]))) q n
      = .ok (some (l.take n)) := by
  simp [google_web_search, Json.getD, List.lookup, h]

/-- Inversion: any serialized serp result list comes from the
normalization loop of some organic-result array. -/
theorem serp_some_inv (resp : Option (Option Json)) (q : String) (n : Nat)
    (l : List SearchResult) (h : serp_web_search resp q n = .ok (some l)) :
    ∃ items, itemsNormalize items = .ok l := by
  unfold serp_web_search at h
  repeat' split at h
  all_goals try simp_all
  all_goals exact ⟨_, by assumption⟩

/-- Inversion: any serialized google result list is a slice of the
normalization of some items array. -/
theorem google_some_inv (resp : Option (Option Json)) (q : String) (n : Nat)
    (l : List SearchResult) (h : google_web_search resp q n = .ok (some l)) :
    ∃ items l0, itemsNormalize items = .ok l0 ∧ l = l0.take n := by
  unfold google_web_search at h
  repeat' split at h
  all_goals try simp_all
  all_goals exact ⟨_, _, by assumption, by simp_all⟩

/-! ### Helper lemmas about fetch-call traces -/

theorem hasEv_append (l₁ l₂ : List Ev) (e : Ev) :
    hasEv (l₁ ++ l₂) e = (hasEv l₁ e || hasEv l₂ e) := by
  simp [hasEv, List.any_append]

theorem hasEv_cons (x : Ev) (l : List Ev) (e : Ev) :
    hasEv (x :: l) e = ((x == e) || hasEv l e) := by
  simp [hasEv]

theorem extract_no_close (env : ScrapeEnv) (url : String) :
    hasEv (extractStep env url).2 Ev.closeSession = false := by
  unfold extractStep
  repeat' split
  all_goals rfl

theorem scrape_no_close (env : ScrapeEnv) (b url : String) :
    hasEv (scrape_text_with_selenium env b url).2 Ev.closeSession = false := by
  have hx := extract_no_close env url
  rcases hext : extractStep env url with ⟨eres, etr⟩
  rw [hext] at hx
  unfold scrape_text_with_selenium
  by_cases hb : supported_browsers.contains b
  · rw [if_pos hb]
    cases env.construct with
    | error e => rfl
    | ok u =>
      cases env.navigate with
      | error e => rfl
      | ok u2 =>
        cases env.waitBody with
        | error e => rfl
        | ok u3 =>
          rw [hext]
          cases eres with
          | error e => rw [hasEv_append, hx]; rfl
          | ok t => rw [hasEv_append, hx]; rfl
  · rw [if_neg hb]
    rfl

theorem fetchSteps_no_close (env : ScrapeEnv) (b url : String) :
    hasEv (fetchSteps env b url).2 Ev.closeSession = false := by
  have hs := scrape_no_close env b url
  rcases h : scrape_text_with_selenium env b url with ⟨res, tr⟩
  rw [h] at hs
  unfold fetchSteps
  rw [h]
  cases res with
  | error e => simpa using hs
  | ok s =>
    cases env.headerRes with
    | error e => rw [hasEv_append, hs]; rfl
    | ok u =>
      cases env.summaryRes with
      | error e => rw [hasEv_append, hs]; rfl
      | ok s2 => rw [hasEv_append, hs]; rfl

theorem scrape_open_eq (env : ScrapeEnv) (b url : String) :
    hasEv (scrape_text_with_selenium env b url).2 Ev.openSession
      = (supported_browsers.contains b && okB env.construct) := by
  unfold scrape_text_with_selenium extractStep
  repeat' split
  all_goals simp_all [okB, hasEv]

theorem fetchSteps_open_eq (env : ScrapeEnv) (b url : String) :
    hasEv (fetchSteps env b url).2 Ev.openSession
      = (supported_browsers.contains b && okB env.construct) := by
  have hs := scrape_open_eq env b url
  rcases h : scrape_text_with_selenium env b url with ⟨res, tr⟩
  rw [h] at hs
  unfold fetchSteps
  rw [h]
  cases res with
  | error e => simpa using hs
  | ok s =>
    cases env.headerRes with
    | error e =>
      rw [hasEv_append, hs, show hasEv [Ev.addHeader] Ev.openSession = false from rfl,
        Bool.or_false]
    | ok u =>
      cases env.summaryRes with
      | error e =>
        rw [hasEv_append, hs,
          show hasEv [Ev.addHeader, Ev.summarize] Ev.openSession = false from rfl,
          Bool.or_false]
      | ok s2 =>
        rw [hasEv_append, hs,
          show hasEv [Ev.addHeader, Ev.summarize] Ev.openSession = false from rfl,
          Bool.or_false]

theorem async_no_close (env : ScrapeEnv) (b url q : String) :
    hasEv (async_browse env b url q).2 Ev.closeSession = false := by
  have hnc := fetchSteps_no_close env b url
  rcases hf : fetchSteps env b url with ⟨res, tr⟩
  rw [hf] at hnc
  unfold async_browse
  rw [hf]
  cases res with
  | ok s => rw [hasEv_cons, hasEv_append, hnc]; rfl
  | error e => rw [hasEv_cons, hnc]; rfl

theorem async_open_eq (env : ScrapeEnv) (b url q : String) :
    hasEv (async_browse env b url q).2 Ev.openSession
      = (supported_browsers.contains b && okB env.construct) := by
  have ho := fetchSteps_open_eq env b url
  rcases hf : fetchSteps env b url with ⟨res, tr⟩
  rw [hf] at ho
  unfold async_browse
  rw [hf]
  cases res with
  | ok s =>
    rw [hasEv_cons, hasEv_append, ho,
      show (Ev.wsBrowsing == Ev.openSession) = false from rfl,
      show hasEv [Ev.wsGathered] Ev.openSession = false from rfl,
      Bool.false_or, Bool.or_false]
  | error e =>
    rw [hasEv_cons, ho, show (Ev.wsBrowsing == Ev.openSession) = false from rfl,
      Bool.false_or]

theorem browse_close_eq (env : ScrapeEnv) (b url q : String) :
    hasEv (browse_website env b url q).2 Ev.closeSession
      = (!(url == "") && okB (browse_website env b url q).1) := by
  by_cases hu : url = ""
  · subst hu; rfl
  · have hbeq : (url == "") = false := beq_eq_false_iff_ne.mpr hu
    have hnc := fetchSteps_no_close env b url
    rcases hf : fetchSteps env b url with ⟨res, tr⟩
    rw [hf] at hnc
    unfold browse_website
    rw [if_neg hu, hf]
    cases res with
    | error e => rw [hnc, hbeq]; rfl
    | ok s =>
      cases env.linksRes with
      | error e => rw [hasEv_append, hnc, hbeq]; rfl
      | ok links => rw [hasEv_append, hnc, hbeq]; rfl

/-- Under a supported browser and successful construction, navigation and
wait, `scrape_text_with_selenium` is the content-extraction step followed
by the whitespace cleanup, and its trace is the three session events
followed by the extraction event. -/
theorem scrape_eq_of_ok (env : ScrapeEnv) (b url : String)
    (hb : supported_browsers.contains b = true)
    (hc : env.construct = .ok ()) (hn : env.navigate = .ok ())
    (hw : env.waitBody = .ok ()) :
    scrape_text_with_selenium env b url =
      ((match (extractStep env url).1 with
        | .error e => .error e
        | .ok t => .ok (cleanText t)),
       [Ev.openSession, Ev.navigate, Ev.waitBody] ++ (extractStep env url).2) := by
  unfold scrape_text_with_selenium
  rw [if_pos hb, hc, hn, hw]
  rcases hext : extractStep env url with ⟨eres, etr⟩
  cases eres <;> rfl

/-! ### Claims about the search client -/

/-- Claim C10: for every provider configuration and every requested count,
calling the search client with an empty query returns the empty JSON array
and issues no provider call — the guard runs before any branch is selected. -/
theorem c10_empty_query (o : Oracles) (search_api : String) (n : Nat) :
    web_search o search_api "" n = (.ok (some []), []) := rfl

/-- Claim C3 counterexample: with the Tavily provider, one provider result
and requested count `n = 0`, the serialized array has one entry, not at
most 0 — the accumulation loop appends before it checks the bound. -/
theorem c3_counterexample :
    outList (web_search ⟨[⟨"http://a", "b"⟩], none, none, [], []⟩ "tavily" "q" 0)
      = some [{ title := none, href := "http://a", body := "b" }] := rfl

/-- Claim C3 (amended): for every query and every requested count `n ≥ 1`,
the tavily, searx and duckduckgo branches serialize exactly the first `n`
normalized provider results (hence at most `n`, in provider order); the
googleAPI branch serializes the youtube-filtered normalization sliced to
`n`; the googleSerp branch serializes the whole youtube-filtered
normalization with no local truncation at all. -/
theorem c3_amended_truncation (o : Oracles) (q : String) (n : Nat)
    (hq : q ≠ "") (hn : 1 ≤ n) :
    outList (web_search o "tavily" q n)
      = some ((o.tavilyResults.map tavilyToResult).take n) ∧
    outList (web_search o "searx" q n)
      = some ((o.searxResults.map searxToResult).take n) ∧
    outList (web_search o "duckduckgo" q n) = some (o.ddgResults.take n) ∧
    (∀ items l, itemsNormalize items = .ok l →
      outList (web_search
          { o with googleResp := some (some (Json.obj [("items", Json.arr items)])) }
          "googleAPI" q n)
        = some (l.take n) ∧
      outList (web_search
          { o with serpResp := some (some (Json.obj [("organic", Json.arr items)])) }
          "googleSerp" q n)
        = some l) := by
  refine ⟨?_, ?_, ?_, ?_⟩
  · rw [web_search_tavily_eq o q n hq]
    simp [outList, takeLoop_zero_of_pos _ n hn]
  · rw [web_search_searx_eq o q n hq]
    simp [outList, takeLoop_zero_of_pos _ n hn]
  · rw [web_search_ddg_eq o q n hq]
    simp [outList, takeLoop_zero_of_pos _ n hn]
  · intro items l hl
    constructor
    · rw [web_search_google_eq _ q n hq]
      show outList (google_web_search
        (some (some (Json.obj [("items", Json.arr items)]))) q n, [NetCall.google])
        = some (l.take n)
      rw [google_ok_items items q n l hl]
      rfl
    · rw [web_search_serp_eq _ q n hq]
      show outList (serp_web_search
        (some (some (Json.obj [("organic", Json.arr items)]))) q n, [NetCall.serp])
        = some l
      rw [serp_ok_items items q n l hl]
      rfl

/-- Claim C3 witness: at `n = 1` the tavily branch with two provider
results serializes exactly the first one. -/
theorem c3_witness :
    outList (web_search ⟨[⟨"http://a", "b"⟩, ⟨"http://c", "d"⟩], none, none, [], []⟩
        "tavily" "q" 1)
      = some [{ title := none, href := "http://a", body := "b" }] :=
  (c3_amended_truncation ⟨[⟨"http://a", "b"⟩, ⟨"http://c", "d"⟩], none, none, [], []⟩
    "q" 1 (by decide) (by decide)).1

/-- Claim C4 counterexample: a parsed serp response missing the expected
`"organic"` field raises a `KeyError` instead of short-circuiting the
branch to no results. -/
theorem c4_counterexample :
    serp_web_search (some (some (Json.obj [("foo", Json.null)]))) "q" 4
      = .error (.keyError "organic") := rfl

/-- Claim C4 (amended): in the serp and google branches an absent response
(the code's resp-is-None guard), a JSON-parse failure and a parsed null all
short-circuit to the no-result return value, with exactly one provider call
and no retry; but a parsed response missing the expected `"organic"` field
(serp), or a result item missing its `"link"` field (either branch), raises
a `KeyError`, while google's missing `"items"` field defaults to an empty
result list. -/
theorem c4_amended_short_circuit (q : String) (n : Nat) :
    serp_web_search none q n = .ok none ∧
    serp_web_search (some none) q n = .ok none ∧
    serp_web_search (some (some .null)) q n = .ok none ∧
    google_web_search none q n = .ok none ∧
    google_web_search (some none) q n = .ok none ∧
    google_web_search (some (some .null)) q n = .ok none ∧
    google_web_search (some (some (Json.obj []))) q n = .ok (some []) ∧
    serp_web_search (some (some (Json.obj []))) q n = .error (.keyError "organic") ∧
    serp_web_search (some (some (Json.obj [("organic",
        Json.arr [Json.obj [("title", Json.str "t")]])]))) q n
      = .error (.keyError "link") ∧
    (∀ o : Oracles, q ≠ "" →
      (web_search o "googleSerp" q n).2 = [NetCall.serp] ∧
      (web_search o "googleAPI" q n).2 = [NetCall.google]) := by
  refine ⟨rfl, rfl, rfl, rfl, rfl, rfl, ?_, rfl, rfl, ?_⟩
  · have h := google_ok_items [] q n [] rfl
    simp only [google_web_search, Json.getD, List.lookup] at h ⊢
    simpa using h
  · intro o hq
    exact ⟨by rw [web_search_serp_eq o q n hq], by rw [web_search_google_eq o q n hq]⟩

/-- Claim C4 witness: with a nonempty query the serp and google branches
issue exactly one provider call each. -/
theorem c4_witness :
    (web_search ⟨[], none, none, [], []⟩ "googleSerp" "q" 4).2 = [NetCall.serp] :=
  ((c4_amended_short_circuit "q" 4).2.2.2.2.2.2.2.2.2 ⟨[], none, none, [], []⟩
    (by decide)).1

/-- Claim C6 counterexample: an unsupported search-provider name falls
through every branch of the `elif` chain and `web_search` returns the
normal empty JSON array instead of failing fast with a lookup fault. -/
theorem c6_counterexample :
    web_search ⟨[⟨"http://a", "b"⟩], none, none, [], []⟩ "bing" "q" 4
      = (.ok (some []), []) := rfl

/-- Claim C6 (amended): an unsupported browser variant fails fast with a
`KeyError` at the `options_available` lookup, before any session exists;
but an unsupported search-provider name does not fail — `web_search`
silently returns the empty JSON array as a normal result. -/
theorem c6_amended_config_fault (env : ScrapeEnv) (b url : String)
    (o : Oracles) (api q : String) (n : Nat) :
    (supported_browsers.contains b = false →
      scrape_text_with_selenium env b url = (.error (.keyError b), [])) ∧
    (q ≠ "" → known_search_apis.contains api = false →
      web_search o api q n = (.ok (some []), [])) := by
  constructor
  · intro hb
    unfold scrape_text_with_selenium
    rw [if_neg (by intro hcond; rw [hcond] at hb; exact absurd hb (by decide))]
  · intro hq hapi
    have h1 : api ≠ "tavily" := by
      intro h; rw [h] at hapi; exact absurd hapi (by decide)
    have h2 : api ≠ "googleSerp" := by
      intro h; rw [h] at hapi; exact absurd hapi (by decide)
    have h3 : api ≠ "googleAPI" := by
      intro h; rw [h] at hapi; exact absurd hapi (by decide)
    have h4 : api ≠ "searx" := by
      intro h; rw [h] at hapi; exact absurd hapi (by decide)
    have h5 : api ≠ "duckduckgo" := by
      intro h; rw [h] at hapi; exact absurd hapi (by decide)
    unfold web_search
    rw [if_neg hq, if_neg h1, if_neg h2, if_neg h3, if_neg h4, if_neg h5]
    rfl

/-- Claim C6 witness: the browser lookup fault at an unsupported browser
name, and the silent empty result at an unsupported provider name. -/
theorem c6_witness :
    scrape_text_with_selenium
        ⟨.ok (), .ok (), .ok (), .ok "p", .ok "a", .ok "d", .ok (), .ok "s", .ok []⟩
        "opera" "http://x"
      = (.error (.keyError "opera"), []) ∧
    web_search ⟨[], none, none, [], []⟩ "bing" "q" 4 = (.ok (some []), []) :=
  ⟨(c6_amended_config_fault
      ⟨.ok (), .ok (), .ok (), .ok "p", .ok "a", .ok "d", .ok (), .ok "s", .ok []⟩
      "opera" "http://x" ⟨[], none, none, [], []⟩ "bing" "q" 4).1 (by decide),
   (c6_amended_config_fault
      ⟨.ok (), .ok (), .ok (), .ok "p", .ok "a", .ok "d", .ok (), .ok "s", .ok []⟩
      "opera" "http://x" ⟨[], none, none, [], []⟩ "bing" "q" 4).2 (by decide) (by decide)⟩

/-- Claim C7 counterexample: the Tavily branch copies the provider's `url`
field into `href` without any validation, so a provider result with an
empty `url` is emitted as a `SearchResult` with an empty `href`. -/
theorem c7_counterexample :
    outList (web_search ⟨[⟨"", "b"⟩], none, none, [], []⟩ "tavily" "q" 4)
      = some [{ title := none, href := "", body := "b" }] := rfl

/-- Claim C7 (amended): every emitted `SearchResult` carries its `href`
verbatim from the provider's `url`/`link` field (so it is non-empty exactly
when the provider field is — nothing enforces non-emptiness), and the
result count stays within the caller's limit only in the loop branches with
`n ≥ 1` and in the googleAPI branch (googleSerp does not truncate, and the
loop emits one entry at `n = 0`). -/
theorem c7_amended_href_provenance (o : Oracles) (q : String) (n : Nat)
    (hq : q ≠ "") :
    (∀ r ∈ (outList (web_search o "tavily" q n)).getD [],
      ∃ t ∈ o.tavilyResults, r.href = t.url) ∧
    (∀ r ∈ (outList (web_search o "searx" q n)).getD [],
      ∃ t ∈ o.searxResults, r.href = t.link) ∧
    (∀ items l, itemsNormalize items = .ok l →
      ∀ r ∈ l, ∃ item ∈ items, item.getStr "link" = .ok r.href) ∧
    (1 ≤ n →
      ((outList (web_search o "tavily" q n)).getD []).length ≤ n ∧
      ((outList (web_search o "searx" q n)).getD []).length ≤ n ∧
      ((outList (web_search o "duckduckgo" q n)).getD []).length ≤ n ∧
      (∀ items l l2, itemsNormalize items = .ok l →
        google_web_search (some (some (Json.obj [("items", Json.arr items)]))) q n
          = .ok (some l2) →
        l2.length ≤ n)) := by
  refine ⟨?_, ?_, ?_, ?_⟩
  · rw [web_search_tavily_eq o q n hq]
    intro r hr
    simp only [outList, Option.getD_some] at hr
    have hmem := (takeLoop_sublist (o.tavilyResults.map tavilyToResult) 0 n).subset hr
    obtain ⟨t, ht, hteq⟩ := List.mem_map.mp hmem
    exact ⟨t, ht, by rw [← hteq]; rfl⟩
  · rw [web_search_searx_eq o q n hq]
    intro r hr
    simp only [outList, Option.getD_some] at hr
    have hmem := (takeLoop_sublist (o.searxResults.map searxToResult) 0 n).subset hr
    obtain ⟨t, ht, hteq⟩ := List.mem_map.mp hmem
    exact ⟨t, ht, by rw [← hteq]; rfl⟩
  · exact itemsNormalize_link_provenance
  · intro hn
    refine ⟨?_, ?_, ?_, ?_⟩
    · rw [web_search_tavily_eq o q n hq]
      simp only [outList, Option.getD_some, takeLoop_zero_of_pos _ n hn]
      exact List.length_take_le n _
    · rw [web_search_searx_eq o q n hq]
      simp only [outList, Option.getD_some, takeLoop_zero_of_pos _ n hn]
      exact List.length_take_le n _
    · rw [web_search_ddg_eq o q n hq]
      simp only [outList, Option.getD_some, takeLoop_zero_of_pos _ n hn]
      exact List.length_take_le n _
    · intro items l l2 hl hg
      rw [google_ok_items items q n l hl] at hg
      injection hg with h
      injection h with h2
      rw [← h2]
      exact List.length_take_le n _

/-- Claim C7 witness: a Tavily result's href is traced back to the
provider object it was copied from. -/
theorem c7_witness :
    ∃ t ∈ ([⟨"http://a", "b"⟩] : List TavilyResult),
      ({ title := none, href := "http://a", body := "b" } : SearchResult).href = t.url :=
  (c7_amended_href_provenance ⟨[⟨"http://a", "b"⟩], none, none, [], []⟩ "q" 4
      (by decide)).1
    { title := none, href := "http://a", body := "b" } (by decide)

/-- Claim C9: in the serp and google branches every provider result whose
link contains `"youtube.com"` is removed (no serialized result's href
contains it), and in the tavily, searx and duckduckgo branches no such
filtering is applied — their output is exactly the unfiltered accumulation
loop over the normalized provider results. -/
theorem c9_youtube_filter :
    (∀ (resp : Option (Option Json)) (q : String) (n : Nat) (l : List SearchResult),
      serp_web_search resp q n = .ok (some l) →
      ∀ r ∈ l, containsSub r.href "youtube.com" = false) ∧
    (∀ (resp : Option (Option Json)) (q : String) (n : Nat) (l : List SearchResult),
      google_web_search resp q n = .ok (some l) →
      ∀ r ∈ l, containsSub r.href "youtube.com" = false) ∧
    (∀ (o : Oracles) (q : String) (n : Nat), q ≠ "" →
      outList (web_search o "tavily" q n)
        = some (takeLoop (o.tavilyResults.map tavilyToResult) 0 n) ∧
      outList (web_search o "searx" q n)
        = some (takeLoop (o.searxResults.map searxToResult) 0 n) ∧
      outList (web_search o "duckduckgo" q n) = some (takeLoop o.ddgResults 0 n)) := by
  refine ⟨?_, ?_, ?_⟩
  · intro resp q n l h r hr
    obtain ⟨items, hi⟩ := serp_some_inv resp q n l h
    exact itemsNormalize_youtube_free items l hi r hr
  · intro resp q n l h r hr
    obtain ⟨items, l0, hi, hl⟩ := google_some_inv resp q n l h
    subst hl
    exact itemsNormalize_youtube_free items l0 hi r (List.mem_of_mem_take hr)
  · intro o q n hq
    exact ⟨by rw [web_search_tavily_eq o q n hq]; rfl,
      by rw [web_search_searx_eq o q n hq]; rfl,
      by rw [web_search_ddg_eq o q n hq]; rfl⟩

/-- Claim C9 witness: a serp response holding one youtube result and one
ordinary result serializes only the ordinary one, whose href is
youtube-free. -/
theorem c9_witness :
    containsSub ({ title := some "t2", href := "http://a", body := "s2" }
        : SearchResult).href "youtube.com" = false :=
  c9_youtube_filter.1
    (some (some (Json.obj [("organic", Json.arr
      [Json.obj [("link", Json.str "https://youtube.com/watch"),
                 ("title", Json.str "t"), ("snippet", Json.str "s")],
       Json.obj [("link", Json.str "http://a"),
                 ("title", Json.str "t2"), ("snippet", Json.str "s2")]])])))
    "q" 4 [{ title := some "t2", href := "http://a", body := "s2" }] rfl
    { title := some "t2", href := "http://a", body := "s2" } (by decide)

/-! ### Claims about the page fetcher -/

/-- Claim C8: once `scrape_text_with_selenium` reaches content extraction
(supported browser; construction, navigation and body-wait succeeded), a
URL ending in `.pdf` goes to the PDF extractor and never to the DOM or
arXiv branches (and on extractor success the call returns the cleaned PDF
text); otherwise a URL containing `arxiv` goes to the arXiv retriever with
the final `/`-delimited segment as the document number; otherwise the DOM
branch runs. -/
theorem c8_url_classification (env : ScrapeEnv) (b url : String)
    (hb : supported_browsers.contains b = true)
    (hc : env.construct = .ok ()) (hn : env.navigate = .ok ())
    (hw : env.waitBody = .ok ()) :
    (strEndsWith url ".pdf" = true →
      Ev.extractPdf url ∈ (scrape_text_with_selenium env b url).2 ∧
      Ev.extractDom ∉ (scrape_text_with_selenium env b url).2 ∧
      (∀ d, Ev.extractArxiv d ∉ (scrape_text_with_selenium env b url).2) ∧
      (∀ t, env.pdfText = .ok t →
        (scrape_text_with_selenium env b url).1 = .ok (cleanText t))) ∧
    (strEndsWith url ".pdf" = false → containsSub url "arxiv" = true →
      Ev.extractArxiv (lastSegment url) ∈ (scrape_text_with_selenium env b url).2 ∧
      Ev.extractDom ∉ (scrape_text_with_selenium env b url).2 ∧
      (∀ d, Ev.extractPdf d ∉ (scrape_text_with_selenium env b url).2)) ∧
    (strEndsWith url ".pdf" = false → containsSub url "arxiv" = false →
      Ev.extractDom ∈ (scrape_text_with_selenium env b url).2 ∧
      (∀ d, Ev.extractPdf d ∉ (scrape_text_with_selenium env b url).2) ∧
      (∀ d, Ev.extractArxiv d ∉ (scrape_text_with_selenium env b url).2)) := by
  have hs := scrape_eq_of_ok env b url hb hc hn hw
  refine ⟨?_, ?_, ?_⟩
  · intro hpdf
    have hext : extractStep env url = (env.pdfText, [Ev.extractPdf url]) := by
      unfold extractStep; rw [if_pos hpdf]
    rw [hs, hext]
    refine ⟨by simp, by simp, fun d => by simp, ?_⟩
    intro t ht
    rw [ht]
  · intro hpdf harx
    have hext : extractStep env url
        = (env.arxivText, [Ev.extractArxiv (lastSegment url)]) := by
      unfold extractStep
      rw [if_neg (by rw [hpdf]; decide), if_pos harx]
    rw [hs, hext]
    exact ⟨by simp, by simp, fun d => by simp⟩
  · intro hpdf harx
    have hext : extractStep env url = (env.domText, [Ev.extractDom]) := by
      unfold extractStep
      rw [if_neg (by rw [hpdf]; decide), if_neg (by rw [harx]; decide)]
    rw [hs, hext]
    exact ⟨by simp, fun d => by simp, fun d => by simp⟩

/-- Claim C8 witness: an arXiv URL reaches the arXiv retriever with the
final path segment as the document number. -/
theorem c8_witness :
    Ev.extractArxiv "1234.5678" ∈ (scrape_text_with_selenium
      ⟨.ok (), .ok (), .ok (), .ok "p", .ok "a", .ok "d", .ok (), .ok "s", .ok []⟩
      "chrome" "https://arxiv.org/abs/1234.5678").2 :=
  ((c8_url_classification
      ⟨.ok (), .ok (), .ok (), .ok "p", .ok "a", .ok "d", .ok (), .ok "s", .ok []⟩
      "chrome" "https://arxiv.org/abs/1234.5678"
      (by decide) rfl rfl rfl).2.1 (by decide) (by decide)).1

/-- Claim C1 counterexample: a fully successful `async_browse` call opens a
browser session and returns without ever closing it. -/
theorem c1_counterexample :
    hasEv (async_browse
      ⟨.ok (), .ok (), .ok (), .ok "p", .ok "a", .ok "d", .ok (), .ok "sum", .ok []⟩
      "chrome" "http://example.com" "q").2 Ev.openSession = true ∧
    hasEv (async_browse
      ⟨.ok (), .ok (), .ok (), .ok "p", .ok "a", .ok "d", .ok (), .ok "sum", .ok []⟩
      "chrome" "http://example.com" "q").2 Ev.closeSession = false ∧
    (async_browse
      ⟨.ok (), .ok (), .ok (), .ok "p", .ok "a", .ok "d", .ok (), .ok "sum", .ok []⟩
      "chrome" "http://example.com" "q").1
      = .ok "Information gathered from url http://example.com: sum" :=
  ⟨rfl, rfl, rfl⟩

/-- Claim C1 (amended): `async_browse` never closes the browser session it
opens, in any outcome; `browse_website` closes the session exactly when the
URL is non-empty and every step up to and including link scraping
succeeded — on any failure the session stays open. -/
theorem c1_amended_session_release (env : ScrapeEnv) (b url q : String) :
    hasEv (async_browse env b url q).2 Ev.closeSession = false ∧
    hasEv (browse_website env b url q).2 Ev.closeSession
      = (!(url == "") && okB (browse_website env b url q).1) :=
  ⟨async_no_close env b url q, browse_close_eq env b url q⟩

/-- Claim C2 counterexample: with the summarizer raising, `browse_website`
propagates the exception to its caller as a raised fault — there is no
`try`/`except` around its steps. -/
theorem c2_counterexample :
    (browse_website
      ⟨.ok (), .ok (), .ok (), .ok "p", .ok "a", .ok "d", .ok (), .error (.exc "boom"), .ok []⟩
      "chrome" "http://example.com" "q").1 = .error (.exc "boom") := rfl

/-- Claim C2 (amended): when the scrape → header → summarize sequence
raises, `async_browse` catches the exception and returns the
error-annotated string built from the URL and the exception message, while
`browse_website` (for a non-empty URL) re-raises the same exception to its
caller. -/
theorem c2_amended_error_surfacing (env : ScrapeEnv) (b url q : String)
    (e : PyErr) (tr : List Ev) (hf : fetchSteps env b url = (.error e, tr)) :
    (async_browse env b url q).1
      = .ok ("Error processing the url " ++ url ++ ": " ++ e.msg) ∧
    (url ≠ "" → (browse_website env b url q).1 = .error e) := by
  constructor
  · unfold async_browse
    rw [hf]
  · intro hu
    unfold browse_website
    rw [if_neg hu, hf]

/-- Claim C2 witness: the summarizer failure surfaced by `async_browse` as
an error string and propagated by `browse_website` as a fault. -/
theorem c2_witness :
    (async_browse
      ⟨.ok (), .ok (), .ok (), .ok "p", .ok "a", .ok "d", .ok (), .error (.exc "boom"), .ok []⟩
      "chrome" "http://example.com" "q").1
      = .ok "Error processing the url http://example.com: boom" ∧
    (browse_website
      ⟨.ok (), .ok (), .ok (), .ok "p", .ok "a", .ok "d", .ok (), .error (.exc "boom"), .ok []⟩
      "chrome" "http://example.com" "q").1 = .error (.exc "boom") := by
  have h := c2_amended_error_surfacing
    ⟨.ok (), .ok (), .ok (), .ok "p", .ok "a", .ok "d", .ok (), .error (.exc "boom"), .ok []⟩
    "chrome" "http://example.com" "q" (.exc "boom")
    [Ev.openSession, Ev.navigate, Ev.waitBody, Ev.extractDom, Ev.addHeader, Ev.summarize]
    rfl
  exact ⟨h.1, h.2 (by decide)⟩

/-- Claim C5 counterexample: `async_browse` performs no empty-URL
validation — called with an empty URL it opens a browser session. -/
theorem c5_counterexample :
    hasEv (async_browse
      ⟨.ok (), .ok (), .ok (), .ok "p", .ok "a", .ok "d", .ok (), .ok "s", .ok []⟩
      "chrome" "" "q").2 Ev.openSession = true := rfl

/-- Claim C5 (amended): `browse_website` rejects the empty URL with the
descriptive cancel message and no browser activity at all; `async_browse`
has no such guard — on an empty URL it opens a browser session whenever the
configured browser is supported and driver construction succeeds. -/
theorem c5_amended_empty_url (env : ScrapeEnv) (b q : String) :
    browse_website env b "" q = (.ok cancelMessage, []) ∧
    hasEv (async_browse env b "" q).2 Ev.openSession
      = (supported_browsers.contains b && okB env.construct) :=
  ⟨rfl, async_open_eq env b "" q⟩
